import Mathlib

/-!
Shallow embedding of the songbird core slice: the input error taxonomy
(`src/input/error.rs`) and the inbound voice-tick data model
(`src/events/context/data/voice.rs`), together with spec-modelled pieces of
the input readiness state machine and the inbound tick aggregator whose
implementations sit outside the given sources.
-/

namespace Songbird

/-- Model of a boxed `dyn Error` trait object (`Box<dyn Error + Send + Sync>`
or a concrete foreign error such as `std::io::Error`): a `Display` rendering
plus an optional further cause, as exposed by the std `Error` trait. -/
inductive DynError where
  | leaf (d : String)
  | node (d : String) (src : DynError)
  deriving DecidableEq

/-- The `Display` rendering of a `dyn Error` value. -/
def DynError.display : DynError → String
  | .leaf d => d
  | .node d _ => d

/-- The std `Error::source` of a `dyn Error` value. -/
def DynError.source : DynError → Option DynError
  | .leaf _ => none
  | .node _ s => some s

/-- `DcaError` is treated as an opaque foreign error value. -/
abbrev DcaError := DynError

/-- `std::io::Error`, treated as an opaque foreign error value. -/
abbrev IoError := DynError

/-- `serde_json::Error`, treated as an opaque foreign error value. -/
abbrev JsonError := DynError

/-- `audiopus::Error`, treated as an opaque foreign error value. -/
abbrev OpusError := DynError

/-- `streamcatcher::CatcherError`, treated as an opaque foreign error value. -/
abbrev CatcherError := DynError

/-- `symphonia_core::errors::Error`, treated as an opaque foreign error value. -/
abbrev SymphError := DynError

/-- `serde_json::Value`, opaque: only its presence matters here. -/
structure Value where
  repr : String
  deriving DecidableEq

/-- `std::process::Output`, opaque apart from its debug rendering. -/
structure Output where
  debugRepr : String
  deriving DecidableEq

/-- The creation `Error` enum of `src/input/error.rs` (lines 10-42). -/
inductive Error where
  | Dca (e : DcaError)
  | Io (e : IoError)
  | Json (error : JsonError) (parsed_text : String)
  | Opus (e : OpusError)
  | Metadata
  | Stdout
  | Streams
  | Streamcatcher (e : CatcherError)
  | YouTubeDlProcessing (v : Value)
  | YouTubeDlRun (o : Output)
  | YouTubeDlUrl (v : Value)
  deriving DecidableEq

/-- `impl fmt::Display for Error` (lines 68-87). -/
def Error.toDisplay : Error → String
  | .Dca _ => "opening file DCA failed"
  | .Io e => e.display
  | .Json _ _ => "parsing JSON failed"
  | .Opus e => e.display
  | .Metadata => "extracting metadata failed"
  | .Stdout => "creating stdout failed"
  | .Streams => "checking if path is stereo failed"
  | .Streamcatcher _ => "invalid config for cached input"
  | .YouTubeDlRun o => "youtube-dl encontered an error: " ++ o.debugRepr
  | .YouTubeDlProcessing _ => "youtube-dl returned invalid JSON"
  | .YouTubeDlUrl _ => "missing youtube-dl url"

/-- `impl StdError for Error`, `fn source` (lines 89-108): `Dca`, `Json` and
`Streamcatcher` return the wrapped error directly; `Io` and `Opus` delegate to
the inner error own `source`; all other variants return `None`. -/
def Error.source : Error → Option DynError
  | .Dca e => some e
  | .Io e => e.source
  | .Json error _ => some error
  | .Opus e => e.source
  | .Metadata => none
  | .Stdout => none
  | .Streams => none
  | .Streamcatcher e => some e
  | .YouTubeDlProcessing _ => none
  | .YouTubeDlRun _ => none
  | .YouTubeDlUrl _ => none

/-- `std::time::Duration`: whole seconds (`u64`) plus a sub-second nanosecond
part (`u32`, below 10^9). -/
structure Duration where
  secs : Nat
  nanos : Nat
  deriving DecidableEq

/-- Rounded centiseconds of a `Duration`, modelling `{:.2}` formatting of
`as_secs_f32()` by exact rational rounding to the nearest centisecond
(the single-precision float rounding of the original is approximated). -/
def Duration.centis (t : Duration) : Nat :=
  (t.secs * 1000000000 + t.nanos + 5000000) / 10000000

/-- Renders a natural number below 100 on exactly two digits. -/
def twoDigits (n : Nat) : String :=
  (if n < 10 then "0" else "") ++ toString n

/-- Model of `format!("retry in {:.2}s", t.as_secs_f32())`s numeric part. -/
def Duration.formatSecs2 (t : Duration) : String :=
  toString (t.centis / 100) ++ "." ++ twoDigits (t.centis % 100)

/-- The `AudioStreamError` enum of `src/input/error.rs` (lines 114-124):
creation failures from a `Compose` factory. -/
inductive AudioStreamError where
  | RetryIn (t : Duration)
  | Fail (why : DynError)
  | Unsupported
  deriving DecidableEq

/-- The variant-specific tail written by `Display for AudioStreamError`
after the common prefix (lines 126-135). -/
def AudioStreamError.displayRest : AudioStreamError → String
  | .RetryIn t => "retry in " ++ t.formatSecs2 ++ "s"
  | .Fail why => why.display
  | .Unsupported => "operation was not supported"

/-- `impl Display for AudioStreamError` (lines 126-135): writes the fixed
prefix, then the variant-specific tail. -/
def AudioStreamError.toDisplay (e : AudioStreamError) : String :=
  "failed to create audio: " ++ e.displayRest

/-- `impl Error for AudioStreamError`, `fn source` (lines 137-141): always
`None`. -/
def AudioStreamError.source (_ : AudioStreamError) : Option DynError :=
  none

/-- The `MakePlayableError` enum of `src/input/error.rs` (lines 148-160):
readiness/pre-processing failures. -/
inductive MakePlayableError where
  | Create (e : AudioStreamError)
  | Parse (e : SymphError)
  | Panicked
  deriving DecidableEq

/-- The variant-specific tail written by `Display for MakePlayableError`
after the common prefix (lines 162-179). -/
def MakePlayableError.displayRest : MakePlayableError → String
  | .Create c => "input creation [" ++ c.toDisplay ++ "]"
  | .Parse p => "parsing formats/codecs [" ++ p.display ++ "]"
  | .Panicked => "panic during blocking I/O in parse"

/-- `impl Display for MakePlayableError` (lines 162-179). -/
def MakePlayableError.toDisplay (e : MakePlayableError) : String :=
  "failed to make track playable: " ++ e.displayRest

/-- `impl Error for MakePlayableError`, `fn source` (lines 181-185): always
`None`. -/
def MakePlayableError.source (_ : MakePlayableError) : Option DynError :=
  none

/-- `impl From<AudioStreamError> for MakePlayableError` (lines 187-191). -/
def MakePlayableError.fromAudioStreamError (val : AudioStreamError) : MakePlayableError :=
  .Create val

/-- `impl From<SymphError> for MakePlayableError` (lines 193-197). -/
def MakePlayableError.fromSymphError (val : SymphError) : MakePlayableError :=
  .Parse val

/-- The `MetadataError` enum of `src/input/error.rs` (lines 209-214):
in-stream metadata state errors. -/
inductive MetadataError where
  | NotLive
  | NotParsed
  deriving DecidableEq

/-- The variant-specific tail written by `Display for MetadataError`
after the common prefix (lines 216-224). -/
def MetadataError.displayRest : MetadataError → String
  | .NotLive => "the input is not live, and hasn\x27t been parsed"
  | .NotParsed => "the input is live but hasn\x27t been parsed"

/-- `impl Display for MetadataError` (lines 216-224). -/
def MetadataError.toDisplay (e : MetadataError) : String :=
  "failed to get metadata: " ++ e.displayRest

/-- `impl Error for MetadataError`, `fn source` (lines 226-230): always
`None`. -/
def MetadataError.source (_ : MetadataError) : Option DynError :=
  none

/-- The `AuxMetadataError` enum of `src/input/error.rs` (lines 240-249):
out-of-band metadata failures. -/
inductive AuxMetadataError where
  | NoCompose
  | Retrieve (e : AudioStreamError)
  deriving DecidableEq

/-- The variant-specific tail written by `Display for AuxMetadataError`
after the common prefix (lines 251-259). -/
def AuxMetadataError.displayRest : AuxMetadataError → String
  | .NoCompose => "the input has no Compose object"
  | .Retrieve e => "aux_metadata error from Compose: " ++ e.toDisplay

/-- `impl Display for AuxMetadataError` (lines 251-259). -/
def AuxMetadataError.toDisplay (e : AuxMetadataError) : String :=
  "failed to get aux_metadata: " ++ e.displayRest

/-- `impl Error for AuxMetadataError`, `fn source` (lines 261-265): always
`None`. -/
def AuxMetadataError.source (_ : AuxMetadataError) : Option DynError :=
  none

/-- `impl From<AudioStreamError> for AuxMetadataError` (lines 267-271). -/
def AuxMetadataError.fromAudioStreamError (val : AudioStreamError) : AuxMetadataError :=
  .Retrieve val

/-- A speaker identifier (SSRC): an unsigned 32-bit integer, embedded as a
natural number below 2^32. -/
abbrev SSRC := Fin 4294967296

/-- A 16-bit signed PCM sample (`i16`), embedded as a bounded integer. -/
abbrev Sample := {i : Int // -32768 ≤ i ∧ i ≤ 32767}

/-- Raw RTP packet data: an opaque transport-layer payload whose bytes the
core never inspects, only its presence or absence. -/
structure RtpData where
  bytes : List Nat
  deriving DecidableEq

/-- The `VoiceData` struct of `src/events/context/data/voice.rs`
(lines 25-38): per-speaker payload for one tick, with `Option<RtpData>`
packet and `Option<Vec<i16>>` decoded audio. -/
structure VoiceData where
  packet : Option RtpData
  decoded_voice : Option (List Sample)
  deriving DecidableEq

/-- The `VoiceTick` struct of `src/events/context/data/voice.rs`
(lines 14-20): `HashMap<u32, VoiceData>` is embedded as an association list
keyed by `SSRC`, and `HashSet<u32>` as a list of `SSRC`. -/
structure VoiceTick where
  speaking : List (SSRC × VoiceData)
  silent : List SSRC
  deriving DecidableEq

/-- Modelled from the spec: the per-tick working state of the Inbound Tick
Aggregator (section 4.2), whose implementation is not among the given
sources. It holds the identifiers known overall and the records made so far
in the current tick. -/
structure TickState where
  known : List SSRC
  recorded : List (SSRC × VoiceData)
  deriving DecidableEq

/-- Modelled from the spec: `finish_tick()` of the Inbound Tick Aggregator
(section 4.2), whose implementation is not among the given sources. It
computes `silent` as all known speaker identifiers minus the speakers
recorded this tick, and freezes the recorded mapping into a `VoiceTick`. -/
def finishTick (st : TickState) : VoiceTick :=
  { speaking := st.recorded
    silent := st.known.filter (fun s => decide (s ∉ st.recorded.map Prod.fst)) }

/-- An opened live audio byte stream, opaque to this slice. -/
structure AudioStream where
  id : Nat
  deriving DecidableEq

/-- Parsed codec/demux state, opaque to this slice. -/
structure CodecState where
  id : Nat
  deriving DecidableEq

/-- Modelled from the spec: a Capability Factory (`Compose`, section 2 and
4.1), whose implementation is not among the given sources; its
stream-creation attempt either yields a live stream or an
`AudioStreamError`. -/
structure Compose where
  createResult : Except AudioStreamError AudioStream

/-- Modelled from the spec: the three-state Input lifecycle entity
(sections 3 and 9), whose implementation is not among the given sources.
Each state carries only the data valid for it. -/
inductive Input where
  | Lazy (factory : Compose)
  | Live (factory : Option Compose) (stream : AudioStream)
  | Parsed (factory : Option Compose) (stream : AudioStream) (codec : CodecState)

/-- Modelled from the spec: `create()` of the Input Readiness State Machine
(section 4.1), whose implementation is not among the given sources. In the
Lazy state it delegates to the held Capability Factory: on success it
transitions to Live storing the stream handle; on failure it remains Lazy
and returns the factory error unchanged. Past Lazy it is an idempotent
no-op. -/
def Input.create : Input → Input × Except AudioStreamError Unit
  | .Lazy f =>
    match f.createResult with
    | .ok s => (.Live (some f) s, .ok ())
    | .error e => (.Lazy f, .error e)
  | st => (st, .ok ())

/-- A concrete aggregator state: speakers 0 and 5 known, speaker 0 recorded
this tick. Used to instantiate closed statements. -/
def exampleTickState : TickState :=
  ⟨[⟨0, by decide⟩, ⟨5, by decide⟩], [(⟨0, by decide⟩, ⟨none, none⟩)]⟩

/-- A concrete `VoiceTick`: speaker 0 speaking, speaker 5 silent. Used to
instantiate closed statements. -/
def exampleVoiceTick : VoiceTick :=
  ⟨[(⟨0, by decide⟩, ⟨none, none⟩)], [⟨5, by decide⟩]⟩

/-- A concrete Capability Factory whose creation attempt asks for a retry
after 2 seconds. Used to instantiate closed statements. -/
def exampleRetryCompose : Compose :=
  ⟨.error (.RetryIn ⟨2, 0⟩)⟩

/-- Claim C1: the creation-failure vocabulary `AudioStreamError` consists of
exactly three kinds — retry-after carrying a relative duration, permanent
failure carrying an underlying cause, and unsupported carrying nothing; no
other creation outcome is representable. -/
theorem audioStreamError_exactly_three_kinds (e : AudioStreamError) :
    (∃ t, e = AudioStreamError.RetryIn t) ∨
      (∃ why, e = AudioStreamError.Fail why) ∨ e = AudioStreamError.Unsupported := by
  cases e with
  | RetryIn t => exact Or.inl ⟨t, rfl⟩
  | Fail why => exact Or.inr (Or.inl ⟨why, rfl⟩)
  | Unsupported => exact Or.inr (Or.inr rfl)

/-- Claim C2: the parse/readiness failure vocabulary `MakePlayableError`
consists of exactly three kinds — a wrapped creation failure, a format/codec
parse failure carrying a cause, and worker-panicked carrying nothing — and
every creation failure converts (`From<AudioStreamError>`) into the
creation-failure wrapper with the inner value unchanged. -/
theorem makePlayableError_kinds_and_from :
    (∀ e : MakePlayableError,
      (∃ a, e = MakePlayableError.Create a) ∨
        (∃ p, e = MakePlayableError.Parse p) ∨ e = MakePlayableError.Panicked) ∧
    (∀ a, MakePlayableError.fromAudioStreamError a = MakePlayableError.Create a) := by
  refine ⟨fun e => ?_, fun a => rfl⟩
  cases e with
  | Create a => exact Or.inl ⟨a, rfl⟩
  | Parse p => exact Or.inr (Or.inl ⟨p, rfl⟩)
  | Panicked => exact Or.inr (Or.inr rfl)

/-- Claim C3, counterexample: `AudioStreamError::Fail` wraps an underlying
cause, yet its `Error::source` implementation returns `None` rather than the
wrapped error — refuting, at this concrete input, that every wrapping kind
exposes its cause through the standard source chain. -/
theorem wrapped_cause_no_source_counterexample :
    AudioStreamError.source (.Fail (.leaf "cause")) ≠ some (DynError.leaf "cause") := by
  decide

/-- Claim C3, amended: every error kind renders a human-readable `Display`
summary built from a fixed per-type prefix, and the kinds that wrap an
underlying cause keep it in the carried value and embed the cause's own
rendering in their `Display` output; however the `Error::source`
implementations of `AudioStreamError`, `MakePlayableError`, `MetadataError`
and `AuxMetadataError` always return `None`, so only the creation `Error`
enum exposes wrapped causes through the source chain. -/
theorem error_display_and_source_amended :
    (∀ e : AudioStreamError, e.toDisplay = "failed to create audio: " ++ e.displayRest) ∧
    (∀ why, AudioStreamError.source (.Fail why) = none ∧
      AudioStreamError.toDisplay (.Fail why) = "failed to create audio: " ++ why.display) ∧
    (∀ e : MakePlayableError,
      e.source = none ∧ e.toDisplay = "failed to make track playable: " ++ e.displayRest) ∧
    (∀ c, MakePlayableError.toDisplay (.Create c) =
      "failed to make track playable: " ++ ("input creation [" ++ c.toDisplay ++ "]")) ∧
    (∀ p, MakePlayableError.toDisplay (.Parse p) =
      "failed to make track playable: " ++ ("parsing formats/codecs [" ++ p.display ++ "]")) ∧
    (∀ e : MetadataError,
      e.source = none ∧ e.toDisplay = "failed to get metadata: " ++ e.displayRest) ∧
    (∀ e : AuxMetadataError,
      e.source = none ∧ e.toDisplay = "failed to get aux_metadata: " ++ e.displayRest) ∧
    (∀ c, AuxMetadataError.toDisplay (.Retrieve c) =
      "failed to get aux_metadata: " ++ ("aux_metadata error from Compose: " ++ c.toDisplay)) :=
  ⟨fun _ => rfl, fun _ => ⟨rfl, rfl⟩, fun _ => ⟨rfl, rfl⟩, fun _ => rfl, fun _ => rfl,
    fun _ => ⟨rfl, rfl⟩, fun _ => ⟨rfl, rfl⟩, fun _ => rfl⟩

/-- Claim C4: the metadata-state failure vocabulary `MetadataError` consists
of exactly two kinds, not-live and not-parsed; both carry no wrapped cause
(their error source is empty), and the two render distinct human-readable
summaries. -/
theorem metadataError_two_state_kinds :
    (∀ e : MetadataError, e = MetadataError.NotLive ∨ e = MetadataError.NotParsed) ∧
    (∀ e : MetadataError, e.source = none) ∧
    MetadataError.toDisplay .NotLive ≠ MetadataError.toDisplay .NotParsed := by
  refine ⟨fun e => ?_, fun _ => rfl, by decide⟩
  cases e with
  | NotLive => exact Or.inl rfl
  | NotParsed => exact Or.inr rfl

/-- Claim C5: the aux-metadata failure vocabulary `AuxMetadataError`
consists of exactly two kinds — no-factory (`NoCompose`) and a retrieval
failure wrapping a creation-style failure; every `AudioStreamError`
converts into the retrieval wrapper with the inner value unchanged, and the
wrapper's rendering includes the inner failure's rendering. -/
theorem auxMetadataError_kinds_from_display :
    (∀ e : AuxMetadataError,
      e = AuxMetadataError.NoCompose ∨ ∃ a, e = AuxMetadataError.Retrieve a) ∧
    (∀ a, AuxMetadataError.fromAudioStreamError a = AuxMetadataError.Retrieve a) ∧
    (∀ a, AuxMetadataError.toDisplay (.Retrieve a) =
      "failed to get aux_metadata: " ++ ("aux_metadata error from Compose: " ++ a.toDisplay)) := by
  refine ⟨fun e => ?_, fun _ => rfl, fun _ => rfl⟩
  cases e with
  | NoCompose => exact Or.inl rfl
  | Retrieve a => exact Or.inr ⟨a, rfl⟩

/-- Claim C6: for every `VoiceTick` handed to consumers (every tick produced
by `finish_tick`), the `speaking` mapping and the `silent` set are disjoint:
no speaker identifier is simultaneously a key of `speaking` and a member of
`silent`. -/
theorem voiceTick_speaking_silent_disjoint (st : TickState) (s : SSRC)
    (h : s ∈ (finishTick st).speaking.map Prod.fst) :
    s ∉ (finishTick st).silent := by
  intro hs
  simp only [finishTick, List.mem_filter, decide_eq_true_eq] at hs h
  exact hs.2 h

/-- Witness for C6 at a concrete aggregator state: speaker 0 is a key of
`speaking` and is not in `silent`. -/
theorem voiceTick_disjoint_witness :
    ((⟨0, by decide⟩ : SSRC) ∈ (finishTick exampleTickState).speaking.map Prod.fst) ∧
      (⟨0, by decide⟩ : SSRC) ∉ (finishTick exampleTickState).silent :=
  ⟨by decide,
    voiceTick_speaking_silent_disjoint exampleTickState ⟨0, by decide⟩ (by decide)⟩

/-- Claim C7: when the Capability Factory returns retry-after(D), `create`
leaves the Input in the Lazy state with no stream handle produced, and the
duration D is delivered to the caller unmodified. -/
theorem retryIn_leaves_input_lazy (f : Compose) (t : Duration)
    (h : f.createResult = .error (.RetryIn t)) :
    Input.create (.Lazy f) = (.Lazy f, .error (.RetryIn t)) := by
  simp [Input.create, h]

/-- Witness for C7 at a concrete factory asking for a 2-second retry. -/
theorem retryIn_lazy_witness :
    exampleRetryCompose.createResult = .error (.RetryIn ⟨2, 0⟩) ∧
      Input.create (.Lazy exampleRetryCompose) =
        (.Lazy exampleRetryCompose, .error (.RetryIn ⟨2, 0⟩)) :=
  ⟨rfl, retryIn_leaves_input_lazy exampleRetryCompose ⟨2, 0⟩ rfl⟩

/-- Claim C8: speaker identifiers at the tick-snapshot interface are
unsigned 32-bit integers — every key of `speaking` and every member of
`silent` in a `VoiceTick` is a value below 2^32. -/
theorem voiceTick_ids_are_u32 (t : VoiceTick) (s : SSRC)
    (_hs : s ∈ t.speaking.map Prod.fst ∨ s ∈ t.silent) :
    s.val < 4294967296 :=
  s.isLt

/-- Witness for C8 at a concrete tick: speaker 0 is a key of `speaking`, and
its identifier is below 2^32. -/
theorem voiceTick_ids_u32_witness :
    ((⟨0, by decide⟩ : SSRC) ∈ exampleVoiceTick.speaking.map Prod.fst ∨
      (⟨0, by decide⟩ : SSRC) ∈ exampleVoiceTick.silent) ∧
      (⟨0, by decide⟩ : SSRC).val < 4294967296 :=
  ⟨Or.inl (by decide),
    voiceTick_ids_are_u32 exampleVoiceTick ⟨0, by decide⟩ (Or.inl (by decide))⟩

/-- Claim C9: in every per-speaker `VoiceData` payload, the raw packet and
the decoded audio are each independently optional — the packet may be absent
while decoded audio is present, and the decoded audio (an ordered sequence
of 16-bit signed samples) may be absent while a packet is present. -/
theorem voiceData_fields_independent :
    (∃ v : VoiceData, v.packet = none ∧ v.decoded_voice.isSome = true) ∧
    (∃ v : VoiceData, v.packet.isSome = true ∧ v.decoded_voice = none) ∧
    (∀ (v : VoiceData) (l : List Sample), v.decoded_voice = some l →
      ∀ x ∈ l, -32768 ≤ x.val ∧ x.val ≤ 32767) :=
  ⟨⟨⟨none, some []⟩, rfl, rfl⟩, ⟨⟨some ⟨[]⟩, none⟩, rfl, rfl⟩,
    fun _ _ _ x _ => ⟨x.2.1, x.2.2⟩⟩

/-- Claim C10: the creation `Error` enum's source chain is
variant-dependent — `Dca`, `Json` and `Streamcatcher` return their wrapped
error directly; `Io` and `Opus` delegate to the inner error's own source
(never the inner error itself, and possibly nothing); `Metadata`, `Stdout`,
`Streams` and the `YouTubeDl` variants always return no source. -/
theorem error_source_variant_table :
    (∀ e, Error.source (.Dca e) = some e) ∧
    (∀ e, Error.source (.Io e) = DynError.source e) ∧
    (∀ err txt, Error.source (.Json err txt) = some err) ∧
    (∀ e, Error.source (.Opus e) = DynError.source e) ∧
    Error.source .Metadata = none ∧
    Error.source .Stdout = none ∧
    Error.source .Streams = none ∧
    (∀ e, Error.source (.Streamcatcher e) = some e) ∧
    (∀ v, Error.source (.YouTubeDlProcessing v) = none) ∧
    (∀ o, Error.source (.YouTubeDlRun o) = none) ∧
    (∀ v, Error.source (.YouTubeDlUrl v) = none) ∧
    (∀ e, DynError.source e ≠ some e) ∧
    (∃ e, Error.source (.Io e) = none) := by
  refine ⟨fun _ => rfl, fun _ => rfl, fun _ _ => rfl, fun _ => rfl, rfl, rfl, rfl,
    fun _ => rfl, fun _ => rfl, fun _ => rfl, fun _ => rfl, ?_, ⟨.leaf "io error", rfl⟩⟩
  intro e h
  cases e with
  | leaf d => simp [DynError.source] at h
  | node d s =>
    simp only [DynError.source, Option.some.injEq] at h
    have hsz := congrArg sizeOf h
    simp only [DynError.node.sizeOf_spec] at hsz
    omega

end Songbird
